import Mathlib

/-!
Shallow embedding of `scripts/pi-status-server.py` from the h2os-fleet
repository.

External effects are modelled as oracle data supplied in an `Env` record:
each `subprocess.run` invocation (systemctl, pgrep, xdotool, the two
screenshot tools) is represented by its outcome (an exception, or an exit
code with captured output), the `/proc/uptime` read by an optional rational
number of seconds, and the screenshot tools additionally by the state of the
temporary output file after the run.  Every function of the script is
translated into a Lean function of that oracle data; HTTP responses are
records of status code, explicitly-sent headers and body.
-/

/-- Outcome of one `subprocess.run` call: either the call raised an exception
(timeout, missing binary, ...), or it completed with an exit code and a
captured stdout text. -/
inductive RunOutcome where
  | raised : RunOutcome
  | completed (returncode : Int) (stdout : String) : RunOutcome
deriving DecidableEq

/-- Outcome of one screenshot-tool run (`import` or the whole-screen capture
wrapper): whether `subprocess.run` raised (e.g. the 10s timeout fired), the
exit code, whether the temporary output file exists after the run, and the
bytes it holds when it does. -/
structure CaptureOutcome where
  raised : Bool
  returncode : Int
  fileAfterRun : Bool
  fileData : List Nat
deriving DecidableEq

/-- Python `str.strip()` with no arguments: remove leading and trailing
whitespace characters. -/
def pyStrip (s : String) : String :=
  ⟨((s.data.dropWhile Char.isWhitespace).reverse.dropWhile Char.isWhitespace).reverse⟩

/-- Python `s.split('\n')[0]`: the characters before the first newline. -/
def firstLine (s : String) : String :=
  ⟨s.data.takeWhile (fun c => c ≠ '\n')⟩

/-- Python truthiness of an optional string (`None` and `""` are falsy). -/
def pyTruthyStr : Option String → Bool
  | none => false
  | some s => !s.isEmpty

/-- Python truthiness of an optional byte string (`None` and `b""` are falsy). -/
def pyTruthyBytes : Option (List Nat) → Bool
  | none => false
  | some d => !d.isEmpty

/-- Oracle environment for one request: outcomes of every external call the
handlers may make, keyed by the argument the script passes. -/
structure Env where
  systemdRun : String → RunOutcome
  processRun : String → RunOutcome
  uptimeRead : Option ℚ
  windowSearch : String → RunOutcome
  windowCapture : String → CaptureOutcome
  fullCapture : CaptureOutcome

/-- Embedding of `check_systemd_service`: runs `systemctl is-active name` and
returns whether the stripped stdout equals `"active"`; any exception yields
`false`.  Note the exit code is never examined. -/
def check_systemd_service (run : RunOutcome) : Bool :=
  match run with
  | .raised => false
  | .completed _ out => pyStrip out == "active"

/-- Embedding of `check_process`: runs `pgrep -f pattern` and returns whether
the exit code is zero; any exception yields `false`. -/
def check_process (run : RunOutcome) : Bool :=
  match run with
  | .raised => false
  | .completed rc _ => rc == 0

/-- Embedding of `get_uptime`: the first field of `/proc/uptime` is modelled
as an optional rational (`none` = any read/parse failure).  Python's float
floor-division `u // 86400` and modulo `u % 86400` are `⌊u / 86400⌋` and
`u - 86400 * ⌊u / 86400⌋`. -/
def get_uptime (read : Option ℚ) : String :=
  match read with
  | none => "unknown"
  | some uptime_seconds =>
    let days : Int := ⌊uptime_seconds / 86400⌋
    let hours : Int := ⌊(uptime_seconds - 86400 * (days : ℚ)) / 3600⌋
    if days > 0 then toString days ++ "d " ++ toString hours ++ "h"
    else toString hours ++ "h"

/-- Embedding of `get_window_id`: runs `xdotool search --name pattern`; on
exit code 0 with non-empty stripped stdout returns the first line of the
stripped stdout, otherwise (non-zero exit, empty output, or exception)
returns `none`. -/
def get_window_id (run : RunOutcome) : Option String :=
  match run with
  | .raised => none
  | .completed rc out =>
    if rc == 0 && !(pyStrip out).isEmpty then some (firstLine (pyStrip out))
    else none

/-- Body of `take_screenshot` after the `subprocess.run` call: the bytes read
(or `none`) paired with whether the temporary file still exists afterwards.
Mirrors the source: on a completed run the file is removed on every path
(success, empty data, failure); when the run raises, the `except` branch
returns without touching the file. -/
def screenshotResult (result : CaptureOutcome) : Option (List Nat) × Bool :=
  if result.raised then (none, result.fileAfterRun)
  else if result.returncode == 0 && result.fileAfterRun then
    if !result.fileData.isEmpty then (some result.fileData, false)
    else (none, false)
  else (none, false)

/-- Embedding of `take_screenshot`: selects the window-capture tool when a
truthy window id is given, the whole-screen wrapper otherwise, then processes
the outcome of the run. -/
def take_screenshot (env : Env) (window_id : Option String := none) :
    Option (List Nat) × Bool :=
  screenshotResult
    (if pyTruthyStr window_id then env.windowCapture (window_id.getD "")
     else env.fullCapture)

/-- Body of an HTTP response: nothing written, a JSON text, or raw PNG bytes. -/
inductive Body where
  | empty : Body
  | json (s : String) : Body
  | png (data : List Nat) : Body
deriving DecidableEq

/-- An HTTP response as the script sends it: status code, the explicitly-sent
headers in order, and the body. -/
structure HttpResponse where
  status : Nat
  headers : List (String × String)
  body : Body
deriving DecidableEq

/-- The CORS header the script sends on most responses. -/
def corsHeader : String × String := ("Access-Control-Allow-Origin", "*")

/-- Rendering of Python `json.dumps({'error': msg})` with default separators. -/
def jsonError (msg : String) : String :=
  "\x7b\"error\": \"" ++ msg ++ "\"\x7d"

/-- The 200 `image/png` response that all three screenshot handlers send on
success (identical header block in the source). -/
def pngResponse (data : List Nat) : HttpResponse :=
  { status := 200,
    headers := [("Content-Type", "image/png"), corsHeader, ("Cache-Control", "no-cache")],
    body := Body.png data }

/-- The StatusReport dict assembled by `handle_status`, with the two mappings
kept as ordered association lists. -/
structure StatusReport where
  status : String
  systemd : List (String × Bool)
  processes : List (String × Bool)
  running : Nat
  total : Nat
  uptime : String
deriving DecidableEq

/-- Embedding of the dict-building part of `handle_status` (lines 138-170):
three fixed systemd checks, three fixed process checks, merge (`{**a, **b}`
on disjoint keys = concatenation), counts and the overall classification. -/
def handle_status_report (env : Env) : StatusReport :=
  let systemd_services : List (String × Bool) :=
    [("groundwater-connection", check_systemd_service (env.systemdRun "groundwater-connection")),
     ("groundwater-genie-manager", check_systemd_service (env.systemdRun "groundwater-genie-manager")),
     ("groundwater-updater", check_systemd_service (env.systemdRun "groundwater-updater"))]
  let processes : List (String × Bool) :=
    [("kmzero.sh", check_process (env.processRun "kmzero.sh")),
     ("groundwater.sh", check_process (env.processRun "groundwater.sh")),
     ("main.py", check_process (env.processRun "main.py"))]
  let all_services := systemd_services ++ processes
  let running_count := (all_services.filter (fun p => p.2)).length
  let total_count := all_services.length
  let overall :=
    if running_count == total_count then "healthy"
    else if running_count > 0 then "partial"
    else "offline"
  { status := overall, systemd := systemd_services, processes := processes,
    running := running_count, total := total_count,
    uptime := get_uptime env.uptimeRead }

/-- Rendering of one boolean JSON value. -/
def jsonBool (b : Bool) : String := if b then "true" else "false"

/-- Rendering of a name→bool mapping as a JSON object, `json.dumps` style. -/
def jsonBoolObj (l : List (String × Bool)) : String :=
  "\x7b" ++ String.intercalate ", "
    (l.map (fun p => "\"" ++ p.1 ++ "\": " ++ jsonBool p.2)) ++ "\x7d"

/-- Rendering of the full StatusReport dict as `json.dumps` produces it. -/
def statusJson (r : StatusReport) : String :=
  "\x7b\"status\": \"" ++ r.status ++ "\", \"systemd\": " ++ jsonBoolObj r.systemd ++
    ", \"processes\": " ++ jsonBoolObj r.processes ++
    ", \"running\": " ++ toString r.running ++
    ", \"total\": " ++ toString r.total ++
    ", \"uptime\": \"" ++ r.uptime ++ "\"\x7d"

/-- Embedding of `handle_status`: always a 200 JSON response with the CORS
header. -/
def handle_status (env : Env) : HttpResponse :=
  { status := 200,
    headers := [("Content-Type", "application/json"), corsHeader],
    body := Body.json (statusJson (handle_status_report env)) }

/-- Embedding of `handle_screenshot`: whole-screen capture; 200 PNG on truthy
data, else a 500 JSON error (whose header block lacks the CORS header). -/
def handle_screenshot (env : Env) : HttpResponse :=
  let data := (take_screenshot env).1
  if pyTruthyBytes data then pngResponse (data.getD [])
  else
    { status := 500,
      headers := [("Content-Type", "application/json")],
      body := Body.json (jsonError "Failed to take screenshot") }

/-- Embedding of `handle_screenshot_terminal`: try the three window patterns
in order; on a truthy window id try a window capture and send 200 PNG on
truthy data; on every other path fall back to `handle_screenshot`. -/
def handle_screenshot_terminal (env : Env) : HttpResponse :=
  let w0 := get_window_id (env.windowSearch "kmzero")
  let w1 := if pyTruthyStr w0 then w0 else get_window_id (env.windowSearch "LXTerminal")
  let window_id := if pyTruthyStr w1 then w1 else get_window_id (env.windowSearch "Terminal")
  if pyTruthyStr window_id then
    let data := (take_screenshot env window_id).1
    if pyTruthyBytes data then pngResponse (data.getD [])
    else handle_screenshot env
  else handle_screenshot env

/-- The 404 JSON response of the chromium route (this one does carry the CORS
header). -/
def chromiumNotRunning : HttpResponse :=
  { status := 404,
    headers := [("Content-Type", "application/json"), corsHeader],
    body := Body.json (jsonError "Chromium not running") }

/-- The window id the chromium route resolves: pattern `"Chromium"`, then
`"Chrome"` when the first is falsy. -/
def chromiumWindow (env : Env) : Option String :=
  let w0 := get_window_id (env.windowSearch "Chromium")
  if pyTruthyStr w0 then w0 else get_window_id (env.windowSearch "Chrome")

/-- Embedding of `handle_screenshot_chromium`: on a truthy window id try a
window capture and send 200 PNG on truthy data; every other path (no window,
or capture returned no data) falls through to the 404 JSON response. -/
def handle_screenshot_chromium (env : Env) : HttpResponse :=
  let window_id := chromiumWindow env
  if pyTruthyStr window_id then
    let data := (take_screenshot env window_id).1
    if pyTruthyBytes data then pngResponse (data.getD [])
    else chromiumNotRunning
  else chromiumNotRunning

/-- Embedding of `do_GET`: the route table, with a bare 404 (no headers sent,
empty body) for unknown paths. -/
def do_GET (env : Env) (path : String) : HttpResponse :=
  if path == "/status" || path == "/" then handle_status env
  else if path == "/screenshot" then handle_screenshot env
  else if path == "/screenshot/terminal" then handle_screenshot_terminal env
  else if path == "/screenshot/chromium" then handle_screenshot_chromium env
  else { status := 404, headers := [], body := Body.empty }

/-- A capture run that completed with a non-zero exit and produced no file. -/
def failShot : CaptureOutcome :=
  { raised := false, returncode := 1, fileAfterRun := false, fileData := [] }

/-- An environment in which every external call fails: all probes raise, the
uptime read fails, window searches raise, and both capture tools exit
non-zero without producing a file. -/
def envAllFail : Env :=
  { systemdRun := fun _ => .raised,
    processRun := fun _ => .raised,
    uptimeRead := none,
    windowSearch := fun _ => .raised,
    windowCapture := fun _ => failShot,
    fullCapture := failShot }

/-- An environment in which the `"Chromium"` window search succeeds with one
window id, but every capture attempt fails. -/
def envChromiumFoundCaptureFails : Env :=
  { envAllFail with
    windowSearch := fun p => if p == "Chromium" then .completed 0 "12345678" else .raised }

/-- A capture run on which the 10s timeout fired after the tool had already
created the output file. -/
def timeoutLeak : CaptureOutcome :=
  { raised := true, returncode := 0, fileAfterRun := true, fileData := [] }

/-! Helper lemmas shared by the claim theorems. -/

/-- Floor of a rational division of naturals is natural division. -/
theorem uptimeFloorDiv (n m : ℕ) : ⌊(n : ℚ) / (m : ℚ)⌋ = ((n / m : ℕ) : ℤ) := by
  rw [← Nat.floor_div_eq_div (α := ℚ) n m]
  exact (Int.natCast_floor_eq_floor (by positivity)).symm

/-- Printing an integer that is a natural cast prints the natural. -/
theorem toStringIntOfNat (k : ℕ) : toString (k : ℤ) = toString k := rfl

/-- Evaluation of `get_uptime` on a whole number of seconds, phrased with
natural division and modulo. -/
theorem get_uptime_natCast (n : ℕ) :
    get_uptime (some (n : ℚ))
      = (if 0 < n / 86400
         then toString (n / 86400) ++ "d " ++ toString (n % 86400 / 3600) ++ "h"
         else toString (n % 86400 / 3600) ++ "h") := by
  have hd : ⌊(n : ℚ) / 86400⌋ = ((n / 86400 : ℕ) : ℤ) := by
    have h := uptimeFloorDiv n 86400
    norm_num at h
    exact h
  have hm : (n : ℚ) - 86400 * (((n / 86400 : ℕ) : ℤ) : ℚ) = ((n % 86400 : ℕ) : ℚ) := by
    have h2 : ((86400 * (n / 86400) + n % 86400 : ℕ) : ℚ) = (n : ℚ) := by
      exact_mod_cast Nat.div_add_mod n 86400
    rw [Int.cast_natCast]
    push_cast at h2
    linarith
  have hh : ⌊((n % 86400 : ℕ) : ℚ) / 3600⌋ = ((n % 86400 / 3600 : ℕ) : ℤ) := by
    have h := uptimeFloorDiv (n % 86400) 3600
    norm_num at h
    exact h
  simp only [get_uptime, hd, hm, hh, gt_iff_lt, Int.natCast_pos]
  rfl

/-- A completed (non-raising) screenshot run always ends with the temporary
file removed. -/
theorem screenshotResult_completed_cleanup (o : CaptureOutcome) (h : o.raised = false) :
    (screenshotResult o).2 = false := by
  simp only [screenshotResult, h, Bool.false_eq_true, if_false]
  split
  · split <;> rfl
  · rfl

/-- The status route always sends the CORS header. -/
theorem cors_mem_handle_status (env : Env) : corsHeader ∈ (handle_status env).headers := by
  simp [handle_status]

/-- When the whole-screen route answers 200 it sends the CORS header. -/
theorem cors_handle_screenshot (env : Env) (h : (handle_screenshot env).status = 200) :
    corsHeader ∈ (handle_screenshot env).headers := by
  by_cases hc : pyTruthyBytes (take_screenshot env).1 = true
  · simp [handle_screenshot, hc, pngResponse, corsHeader]
  · simp [handle_screenshot, hc] at h

/-- The terminal route either sends a 200 PNG or exactly the whole-screen
route's response. -/
theorem terminal_fallback_or_png (env : Env) :
    (∃ d, handle_screenshot_terminal env = pngResponse d)
    ∨ handle_screenshot_terminal env = handle_screenshot env := by
  simp only [handle_screenshot_terminal]
  repeat' split
  all_goals first | (left; exact ⟨_, rfl⟩) | (right; rfl)

/-- When the terminal route answers 200 it sends the CORS header. -/
theorem cors_handle_screenshot_terminal (env : Env)
    (h : (handle_screenshot_terminal env).status = 200) :
    corsHeader ∈ (handle_screenshot_terminal env).headers := by
  rcases terminal_fallback_or_png env with ⟨d, hd⟩ | hd
  · rw [hd]; simp [pngResponse, corsHeader]
  · rw [hd] at h ⊢; exact cors_handle_screenshot env h

/-- The chromium route either sends a 200 PNG or the fixed 404 response. -/
theorem chromium_png_or_404 (env : Env) :
    (∃ d, handle_screenshot_chromium env = pngResponse d)
    ∨ handle_screenshot_chromium env = chromiumNotRunning := by
  simp only [handle_screenshot_chromium]
  repeat' split
  all_goals first | (left; exact ⟨_, rfl⟩) | (right; rfl)

/-- The chromium route sends the CORS header on both of its outcomes. -/
theorem cors_handle_screenshot_chromium (env : Env) :
    corsHeader ∈ (handle_screenshot_chromium env).headers := by
  rcases chromium_png_or_404 env with ⟨d, hd⟩ | hd <;> rw [hd] <;>
    simp [pngResponse, chromiumNotRunning, corsHeader]

/-! Claim theorems. -/

/-- C1: for every outcome of the six fixed service/process checks, the
StatusReport built by `handle_status` has `running` equal to the number of
true values across the merged systemd and process mappings, and `status` is
`"healthy"` iff `running = total`, `"offline"` iff `running = 0`, and
`"partial"` otherwise. -/
theorem handle_status_invariant (env : Env) :
    (handle_status_report env).running
      = (((handle_status_report env).systemd ++ (handle_status_report env).processes).filter
          (fun p => p.2)).length
    ∧ ((handle_status_report env).status = "healthy"
        ↔ (handle_status_report env).running = (handle_status_report env).total)
    ∧ ((handle_status_report env).status = "offline"
        ↔ (handle_status_report env).running = 0)
    ∧ ((handle_status_report env).status = "partial"
        ↔ ((handle_status_report env).running ≠ (handle_status_report env).total
            ∧ (handle_status_report env).running ≠ 0)) := by
  simp only [handle_status_report]
  generalize check_systemd_service (env.systemdRun "groundwater-connection") = b1
  generalize check_systemd_service (env.systemdRun "groundwater-genie-manager") = b2
  generalize check_systemd_service (env.systemdRun "groundwater-updater") = b3
  generalize check_process (env.processRun "kmzero.sh") = b4
  generalize check_process (env.processRun "groundwater.sh") = b5
  generalize check_process (env.processRun "main.py") = b6
  revert b1 b2 b3 b4 b5 b6
  decide

/-- C1 witness: in the all-failing environment the report is classified
offline, via the invariant theorem. -/
theorem handle_status_invariant_witness :
    (handle_status_report envAllFail).status = "offline" :=
  (handle_status_invariant envAllFail).2.2.1.mpr rfl

/-- C2 counterexample: when the three window searches fail and the
whole-screen capture also fails, `/screenshot/terminal` answers 500, so the
route can produce a non-200 response. -/
theorem screenshot_terminal_500_counterexample :
    (do_GET envAllFail "/screenshot/terminal").status = 500 := rfl

/-- C2 amended: when all window searches yield no (truthy) window the
terminal route falls back to exactly the whole-screen handler's response, and
in general every response of the route is either a 200 or the whole-screen
handler's response (which is 500 when that capture fails too). -/
theorem screenshot_terminal_fallback (env : Env) :
    ((∀ p, pyTruthyStr (get_window_id (env.windowSearch p)) = false) →
      handle_screenshot_terminal env = handle_screenshot env)
    ∧ ((handle_screenshot_terminal env).status = 200
        ∨ handle_screenshot_terminal env = handle_screenshot env) := by
  constructor
  · intro h
    simp [handle_screenshot_terminal, h]
  · simp only [handle_screenshot_terminal]
    repeat' split
    all_goals first | (left; rfl) | (right; rfl)

/-- C2 witness: in the all-failing environment the terminal route returns the
whole-screen handler's response. -/
theorem screenshot_terminal_fallback_witness :
    handle_screenshot_terminal envAllFail = handle_screenshot envAllFail :=
  (screenshot_terminal_fallback envAllFail).1 (fun _ => rfl)

/-- C3 counterexample: when the capture run raises (the 10s timeout) after
the tool created the output file, `take_screenshot` returns with the
temporary file still existing. -/
theorem take_screenshot_timeout_leak_counterexample :
    (take_screenshot { envAllFail with fullCapture := timeoutLeak }).2 = true := rfl

/-- C3 amended: whenever the capture run completes without raising (success,
non-zero exit, or empty output file), the temporary file does not exist after
`take_screenshot` returns; only a raising run (timeout) can leak it. -/
theorem take_screenshot_cleanup_completed (env : Env) (window_id : Option String)
    (h1 : ∀ s, (env.windowCapture s).raised = false)
    (h2 : env.fullCapture.raised = false) :
    (take_screenshot env window_id).2 = false := by
  unfold take_screenshot
  apply screenshotResult_completed_cleanup
  split
  · exact h1 _
  · exact h2

/-- C3 witness: the cleanup theorem applied to the all-failing environment
and a concrete window id. -/
theorem take_screenshot_cleanup_completed_witness :
    (take_screenshot envAllFail (some "123")).2 = false :=
  take_screenshot_cleanup_completed envAllFail (some "123") (fun _ => rfl) rfl

/-- C4 counterexample: in an environment where the `"Chromium"` window search
resolves a window but the capture fails, the route answers 404 even though a
window resolved. -/
theorem screenshot_chromium_404_despite_window :
    pyTruthyStr (get_window_id (envChromiumFoundCaptureFails.windowSearch "Chromium")) = true
    ∧ (do_GET envChromiumFoundCaptureFails "/screenshot/chromium").status = 404 :=
  ⟨rfl, rfl⟩

/-- C4 amended: the chromium route answers the exact 404 JSON response iff no
window resolves or the window capture yields no data, and answers 200 with
the PNG bytes when a window resolves and the capture yields data. -/
theorem screenshot_chromium_response_spec (env : Env) :
    (handle_screenshot_chromium env = chromiumNotRunning
      ↔ (pyTruthyStr (chromiumWindow env) = false
          ∨ pyTruthyBytes (take_screenshot env (chromiumWindow env)).1 = false))
    ∧ (pyTruthyStr (chromiumWindow env) = true →
        pyTruthyBytes (take_screenshot env (chromiumWindow env)).1 = true →
        handle_screenshot_chromium env
          = pngResponse ((take_screenshot env (chromiumWindow env)).1.getD [])) := by
  constructor
  · simp only [handle_screenshot_chromium]
    split
    next hw =>
      split
      next hd =>
        constructor
        · intro h
          have hs := congrArg HttpResponse.status h
          simp [pngResponse, chromiumNotRunning] at hs
        · rintro (h | h)
          · simp [hw] at h
          · simp [hd] at h
      next hd =>
        exact ⟨fun _ => Or.inr (by simpa using hd), fun _ => rfl⟩
    next hw =>
      exact ⟨fun _ => Or.inl (by simpa using hw), fun _ => rfl⟩
  · intro h1 h2
    simp [handle_screenshot_chromium, h1, h2]

/-- C4 witness: the response spec applied to the environment where a Chromium
window resolves but the capture fails yields the 404 response. -/
theorem screenshot_chromium_response_spec_witness :
    handle_screenshot_chromium envChromiumFoundCaptureFails = chromiumNotRunning :=
  (screenshot_chromium_response_spec envChromiumFoundCaptureFails).1.mpr (Or.inr rfl)

/-- C5: `get_uptime` yields "1d 1h" for 90000 seconds, "1h" for 3600 seconds,
"unknown" on a failed read, and in general formats a whole number of seconds
as "{days}d {hours}h" when days is positive and "{hours}h" otherwise. -/
theorem get_uptime_format :
    get_uptime (some 90000) = "1d 1h"
    ∧ get_uptime (some 3600) = "1h"
    ∧ get_uptime none = "unknown"
    ∧ ∀ n : ℕ, get_uptime (some (n : ℚ))
        = (if 0 < n / 86400
           then toString (n / 86400) ++ "d " ++ toString (n % 86400 / 3600) ++ "h"
           else toString (n % 86400 / 3600) ++ "h") := by
  refine ⟨?_, ?_, rfl, get_uptime_natCast⟩
  · have h := get_uptime_natCast 90000
    norm_num at h
    exact h.trans (by decide)
  · have h := get_uptime_natCast 3600
    norm_num at h
    exact h.trans (by decide)

/-- C6 counterexample: a query that completed with a non-zero exit code but
printed `active` still makes `check_systemd_service` return true, because the
function never examines the exit code. -/
theorem check_systemd_service_nonzero_exit_true :
    check_systemd_service (RunOutcome.completed 1 "active\n") = true := by decide

/-- C6 amended: `check_systemd_service` returns true iff the query completed
without raising and its stripped stdout equals "active"; execution errors and
timeouts yield false; the exit code is not consulted.  The function is total,
so it never raises to its caller. -/
theorem check_systemd_service_active_iff (run : RunOutcome) :
    check_systemd_service run = true
      ↔ ∃ rc out, run = RunOutcome.completed rc out ∧ pyStrip out = "active" := by
  cases run with
  | raised => simp [check_systemd_service]
  | completed rc out =>
    simp only [check_systemd_service, beq_iff_eq, RunOutcome.completed.injEq]
    constructor
    · intro h; exact ⟨rc, out, ⟨rfl, rfl⟩, h⟩
    · rintro ⟨rc', out', ⟨h1, h2⟩, h⟩; subst h2; exact h

/-- C6 witness: the characterization applied at a concrete successful
query. -/
theorem check_systemd_service_active_iff_witness :
    check_systemd_service (RunOutcome.completed 0 "active\n") = true :=
  (check_systemd_service_active_iff (RunOutcome.completed 0 "active\n")).mpr
    ⟨0, "active\n", rfl, by decide⟩

/-- C7 counterexample: the unknown-path 404 response carries no headers at
all, in particular not the CORS header, so not every response is CORS-open. -/
theorem cors_missing_on_unknown_path :
    do_GET envAllFail "/foo" = { status := 404, headers := [], body := Body.empty } := rfl

/-- C7 amended: every 200 response carries `Access-Control-Allow-Origin: *`,
and so does every response of the chromium route (including its 404); the
unknown-path 404 and the whole-screen 500 failure response do not. -/
theorem cors_header_spec (env : Env) (path : String) :
    ((do_GET env path).status = 200 → corsHeader ∈ (do_GET env path).headers)
    ∧ (path = "/screenshot/chromium" → corsHeader ∈ (do_GET env path).headers) := by
  unfold do_GET
  by_cases h1 : (path == "/status" || path == "/") = true
  · rw [if_pos h1]
    exact ⟨fun _ => cors_mem_handle_status env, fun _ => cors_mem_handle_status env⟩
  · rw [if_neg h1]
    by_cases h2 : (path == "/screenshot") = true
    · rw [if_pos h2]
      refine ⟨fun h => cors_handle_screenshot env h, fun hp => ?_⟩
      subst hp; simp at h2
    · rw [if_neg h2]
      by_cases h3 : (path == "/screenshot/terminal") = true
      · rw [if_pos h3]
        refine ⟨fun h => cors_handle_screenshot_terminal env h, fun hp => ?_⟩
        subst hp; simp at h3
      · rw [if_neg h3]
        by_cases h4 : (path == "/screenshot/chromium") = true
        · rw [if_pos h4]
          exact ⟨fun _ => cors_handle_screenshot_chromium env,
                 fun _ => cors_handle_screenshot_chromium env⟩
        · rw [if_neg h4]
          refine ⟨fun h => by simp at h, fun hp => ?_⟩
          subst hp; simp at h4

/-- C7 witness: the status route's 200 response carries the CORS header. -/
theorem cors_header_spec_witness :
    corsHeader ∈ (do_GET envAllFail "/status").headers :=
  (cors_header_spec envAllFail "/status").1 rfl

/-- C8: `get_window_id` returns the first line of the stripped output when
the search tool exits 0 with non-empty stripped output, and `none` on any
failure (exception, non-zero exit, empty result); it is total, hence never
raises. -/
theorem get_window_id_spec (rc : Int) (out : String) :
    get_window_id RunOutcome.raised = none
    ∧ get_window_id (RunOutcome.completed rc out)
      = (if rc = 0 ∧ pyStrip out ≠ "" then some (firstLine (pyStrip out)) else none) := by
  refine ⟨rfl, ?_⟩
  by_cases h1 : rc = 0 <;> by_cases h2 : pyStrip out = "" <;>
    simp [get_window_id, h1, h2, String.isEmpty_iff]

/-- C8 witness: the characterization evaluated on a concrete two-line
output. -/
theorem get_window_id_spec_witness :
    get_window_id (RunOutcome.completed 0 "  12345\n678\n") = some "12345" :=
  ((get_window_id_spec 0 "  12345\n678\n").2).trans (by decide)

/-- C9: any path other than the five routed ones gets a 404 response with no
headers and an empty body. -/
theorem unknown_path_404 (env : Env) (path : String)
    (h1 : path ≠ "/status") (h2 : path ≠ "/") (h3 : path ≠ "/screenshot")
    (h4 : path ≠ "/screenshot/terminal") (h5 : path ≠ "/screenshot/chromium") :
    do_GET env path = { status := 404, headers := [], body := Body.empty } := by
  simp [do_GET, h1, h2, h3, h4, h5]

/-- C9 witness: the unknown-path theorem applied to `/foo`. -/
theorem unknown_path_404_witness :
    "/foo" ≠ "/status"
    ∧ do_GET envAllFail "/foo" = { status := 404, headers := [], body := Body.empty } :=
  ⟨by decide, unknown_path_404 envAllFail "/foo" (by decide) (by decide) (by decide)
    (by decide) (by decide)⟩

/-- C10: every StatusReport has total exactly 6, running between 0 and total,
status drawn from the three classifications, and the two fixed key lists are
disjoint. -/
theorem handle_status_report_shape (env : Env) :
    (handle_status_report env).total = 6
    ∧ (handle_status_report env).running ≤ (handle_status_report env).total
    ∧ ((handle_status_report env).status = "healthy"
        ∨ (handle_status_report env).status = "partial"
        ∨ (handle_status_report env).status = "offline")
    ∧ (handle_status_report env).systemd.map Prod.fst
        = ["groundwater-connection", "groundwater-genie-manager", "groundwater-updater"]
    ∧ (handle_status_report env).processes.map Prod.fst
        = ["kmzero.sh", "groundwater.sh", "main.py"]
    ∧ ∀ k ∈ (handle_status_report env).systemd.map Prod.fst,
        k ∉ (handle_status_report env).processes.map Prod.fst := by
  simp only [handle_status_report]
  generalize check_systemd_service (env.systemdRun "groundwater-connection") = b1
  generalize check_systemd_service (env.systemdRun "groundwater-genie-manager") = b2
  generalize check_systemd_service (env.systemdRun "groundwater-updater") = b3
  generalize check_process (env.processRun "kmzero.sh") = b4
  generalize check_process (env.processRun "groundwater.sh") = b5
  generalize check_process (env.processRun "main.py") = b6
  refine ⟨?_, ?_, ?_, rfl, rfl, ?_⟩
  · revert b1 b2 b3 b4 b5 b6; decide
  · revert b1 b2 b3 b4 b5 b6; decide
  · revert b1 b2 b3 b4 b5 b6; decide
  · show ∀ k ∈ (["groundwater-connection", "groundwater-genie-manager",
        "groundwater-updater"] : List String),
      k ∉ (["kmzero.sh", "groundwater.sh", "main.py"] : List String)
    decide

/-- C10 witness: the shape theorem gives that the first systemd key is not a
process key. -/
theorem handle_status_report_shape_witness :
    "groundwater-connection" ∉ (handle_status_report envAllFail).processes.map Prod.fst :=
  (handle_status_report_shape envAllFail).2.2.2.2.2 "groundwater-connection" (by decide)
